import Mathlib

/-!
Verification of `gordo_components/pipeline_translator/pipeline_from_definition.py`.

The module translates an already-decoded nested configuration structure
(mappings, sequences, strings) into an object graph.  We shallowly embed the
decoded values, the dynamic-language operations the module relies on
(`in`, item access, item assignment, iteration, keyword/positional calls),
and the three functions `pipeline_from_definition`, `_build_branch` and
`_build_step`.  Constructed components are modelled symbolically: an object
records which class was invoked and with which arguments, which is exactly
the observable the spec's fake-registry tests use.

The registry (`pydoc.locate` in the source) is a parameter
`loc : String → Option String` mapping an import path to the identity of the
located class; the two distinguished container classes are
`sklearn.pipeline.Pipeline` and `sklearn.pipeline.FeatureUnion`.

Because `_build_step` mutates the input in place
(`params['steps'] = _build_branch(...)`), the core embedding `buildStepM`
returns both the constructed result and the post-call state of the input
node, so that mutation-sensitive properties can be settled.
-/

namespace PipelineTranslator

/-- Decoded configuration values together with symbolically constructed
component objects.  `objKw c kw` is the object built by calling class `c`
with keyword arguments `kw` (a zero-argument call records `objKw c []`,
as in Python where `C()` and `C(**{})` coincide); `objPos c a` is the
object built by calling `c` with the single positional argument `a`. -/
inductive PyVal where
  | str (s : String)
  | int (n : Int)
  | bool (b : Bool)
  | none
  | list (xs : List PyVal)
  | tuple (xs : List PyVal)
  | dict (entries : List (String × PyVal))
  | objKw (cls : String) (kwargs : List (String × PyVal))
  | objPos (cls : String) (arg : PyVal)

/-- Name of the runtime type of a value, as Python would report it. -/
def pyTypeName : PyVal → String
  | .str _ => "str"
  | .int _ => "int"
  | .bool _ => "bool"
  | .none => "NoneType"
  | .list _ => "list"
  | .tuple _ => "tuple"
  | .dict _ => "dict"
  | .objKw c _ => c
  | .objPos c _ => c

/-- Errors the translated code can raise.  The three `valueError…`
constructors correspond to the three `raise ValueError` sites of
`_build_step` (with their message payloads kept as structured data); the
`typeError…` constructors are the Python `TypeError`s that the dynamic
operations used by the code can produce.  `outOfFuel` is the artificial
result of exhausting the recursion budget of the embedding. -/
inductive PyErr where
  | valueErrorMultipleKeys (keys : List String)
  | valueErrorInvalidParams (cls : String) (params : PyVal)
  | valueErrorBadNodeKind (kind : String)
  | typeErrorNoneNotCallable
  | typeErrorKwargsNotMapping (kind : String)
  | typeErrorArgNotIterable (kind : String)
  | typeErrorNotIterable (kind : String)
  | typeErrorListIndicesStr
  | typeErrorTupleIndicesStr
  | typeErrorStrIndicesStr
  | typeErrorNoItemAssign (kind : String)
  | keyError (key : String)
  | outOfFuel

/-- The `ValueError`s of `_build_step` (the structural, malformed-definition
errors), as opposed to the `TypeError`s of the dynamic operations. -/
def PyErr.isMalformed : PyErr → Bool
  | .valueErrorMultipleKeys _ => true
  | .valueErrorInvalidParams _ _ => true
  | .valueErrorBadNodeKind _ => true
  | _ => false

/-- First-match lookup in a mapping's entry list (Python `d[k]` read on a
string-keyed dict). -/
def dictGet : List (String × PyVal) → String → Option PyVal
  | [], _ => Option.none
  | (k, v) :: rest, key => if k == key then Option.some v else dictGet rest key

/-- In-place update of a mapping: replace the value at an existing key
(keeping its position, as Python dicts do) or append a fresh key. -/
def dictSet : List (String × PyVal) → String → PyVal → List (String × PyVal)
  | [], key, x => [(key, x)]
  | (k, v) :: rest, key, x =>
    if k == key then (k, x) :: rest else (k, v) :: dictSet rest key x

/-- Substring test, Python `pat in s` on strings. -/
def strContains (s pat : String) : Bool := (s.splitOn pat).length != 1

/-- Python equality between a decoded value and a string literal: only a
string with the same contents compares equal. -/
def pyEqStr : PyVal → String → Bool
  | .str t, s => t == s
  | _, _ => false

/-- Python membership `key in v` for a string `key`: key lookup on dicts,
element equality on lists and tuples, substring test on strings, and a
`TypeError` on non-containers. -/
def pyContains (v : PyVal) (key : String) : Except PyErr Bool :=
  match v with
  | .dict es => .ok (dictGet es key).isSome
  | .list xs => .ok (xs.any (fun x => pyEqStr x key))
  | .tuple xs => .ok (xs.any (fun x => pyEqStr x key))
  | .str s => .ok (strContains s key)
  | other => .error (.typeErrorArgNotIterable (pyTypeName other))

/-- Python subscript read `v[key]` with a string key. -/
def pyGetItem (v : PyVal) (key : String) : Except PyErr PyVal :=
  match v with
  | .dict es =>
    match dictGet es key with
    | Option.some x => .ok x
    | Option.none => .error (.keyError key)
  | .list _ => .error .typeErrorListIndicesStr
  | .tuple _ => .error .typeErrorTupleIndicesStr
  | .str _ => .error .typeErrorStrIndicesStr
  | other => .error (.typeErrorNoItemAssign (pyTypeName other))

/-- Python subscript assignment `v[key] = x` with a string key. -/
def pySetItem (v : PyVal) (key : String) (x : PyVal) : Except PyErr PyVal :=
  match v with
  | .dict es => .ok (.dict (dictSet es key x))
  | .list _ => .error .typeErrorListIndicesStr
  | other => .error (.typeErrorNoItemAssign (pyTypeName other))

/-- Python iteration (`enumerate` in `_build_branch`): lists and tuples give
their elements, strings their characters, dicts their keys; anything else
raises `TypeError`. -/
def pyIter : PyVal → Except PyErr (List PyVal)
  | .list xs => .ok xs
  | .tuple xs => .ok xs
  | .str s => .ok (s.data.map (fun ch => PyVal.str (String.mk [ch])))
  | .dict es => .ok (es.map (fun e => PyVal.str e.1))
  | v => .error (.typeErrorNotIterable (pyTypeName v))

/-- Identity of `sklearn.pipeline.Pipeline` as returned by the registry. -/
def pipelineCls : String := "sklearn.pipeline.Pipeline"

/-- Identity of `sklearn.pipeline.FeatureUnion` as returned by the registry. -/
def featureUnionCls : String := "sklearn.pipeline.FeatureUnion"

/-- The container test of `_build_step`:
`any(StepClass == obj for obj in [FeatureUnion, Pipeline])`. -/
def isContainer (c : String) : Bool := c == featureUnionCls || c == pipelineCls

/-- Python call `StepClass(**params)`.  CPython first checks that the
argument after `**` is a mapping, then that the callee is callable; an
unresolved `pydoc.locate` result is `None`, which is not callable. -/
def pyCallKw (ctor : Option String) (params : PyVal) : Except PyErr PyVal :=
  match params with
  | PyVal.dict es =>
    match ctor with
    | Option.none => .error PyErr.typeErrorNoneNotCallable
    | Option.some c => .ok (PyVal.objKw c es)
  | other => .error (PyErr.typeErrorKwargsNotMapping (pyTypeName other))

/-- Python call `StepClass()` with no arguments. -/
def pyCallNoArgs : Option String → Except PyErr PyVal
  | Option.none => .error PyErr.typeErrorNoneNotCallable
  | Option.some c => .ok (PyVal.objKw c [])

@[simp] lemma except_bind_ok {α β : Type} (a : α) (f : α → Except PyErr β) :
    (Except.ok a >>= f) = f a := rfl

@[simp] lemma except_bind_error {α β : Type} (e : PyErr) (f : α → Except PyErr β) :
    ((Except.error e : Except PyErr α) >>= f) = Except.error e := rfl

@[simp] lemma except_map_ok {α β : Type} (f : α → β) (a : α) :
    Except.map f (Except.ok a : Except PyErr α) = Except.ok (f a) := rfl

@[simp] lemma except_map_error {α β : Type} (f : α → β) (e : PyErr) :
    Except.map f (Except.error e : Except PyErr α) = Except.error e := rfl

/-- The list comprehension of `_build_branch`:
`[(f'step_{i}', _build_step(step)) for i, step in enumerate(definition)]`,
threaded through an arbitrary step resolver `bs` that also reports the
post-call state of each child.  `i` is the index of the first element. -/
def buildSteps (bs : PyVal → Except PyErr (PyVal × PyVal)) :
    Nat → List PyVal → Except PyErr (List (PyVal × PyVal))
  | _, [] => .ok []
  | i, d :: ds => do
    let r ← bs d
    let rest ← buildSteps bs (i + 1) ds
    pure ((PyVal.tuple [PyVal.str ("step_" ++ toString i), r.1], r.2) :: rest)

/-- `_build_branch(definition, constructor_class)` over a step resolver
`bs`: label the resolved children `step_0 …` in input order, then either
return the raw list (`constructor_class is None`) or call the constructor
on it.  The second component collects the post-call states of the
children. -/
def buildBranchM (bs : PyVal → Except PyErr (PyVal × PyVal))
    (definition : List PyVal) (ctor : Option String) :
    Except PyErr (PyVal × List PyVal) := do
  let built ← buildSteps bs 0 definition
  let steps := PyVal.list (built.map (fun b => b.1))
  match ctor with
  | Option.none => pure (steps, built.map (fun b => b.2))
  | Option.some c => pure (PyVal.objPos c steps, built.map (fun b => b.2))

/-- `_build_step(step)`, returning the constructed object together with the
post-call state of the input node (the source mutates `params` in place in
the two children-key branches).  `loc` is `pydoc.locate`; `fuel` bounds the
recursion depth of the embedding. -/
def buildStepM (loc : String → Option String) :
    Nat → PyVal → Except PyErr (PyVal × PyVal)
  | 0, _ => .error PyErr.outOfFuel
  | fuel + 1, step =>
    match step with
    | PyVal.dict [(importStr, params)] =>
      -- `params = step.get(import_str, dict())`: the key is always present,
      -- so `params` is the stored value even when that value is `None`.
      match loc importStr with
      | Option.some c =>
        if isContainer c then do
          let hasTL ← pyContains params "transformer_list"
          if hasTL then do
            let raw ← pyGetItem params "transformer_list"
            let kids ← pyIter raw
            let br ← buildBranchM (fun d => buildStepM loc fuel d) kids Option.none
            let params2 ← pySetItem params "transformer_list" br.1
            let res ← pyCallKw (Option.some c) params2
            pure (res, PyVal.dict [(importStr, params2)])
          else do
            let hasSteps ← pyContains params "steps"
            if hasSteps then do
              let raw ← pyGetItem params "steps"
              let kids ← pyIter raw
              let br ← buildBranchM (fun d => buildStepM loc fuel d) kids Option.none
              let params2 ← pySetItem params "steps" br.1
              let res ← pyCallKw (Option.some c) params2
              pure (res, PyVal.dict [(importStr, params2)])
            else
              match params with
              | PyVal.list xs => do
                let br ← buildBranchM (fun d => buildStepM loc fuel d) xs Option.none
                pure (PyVal.objPos c br.1, PyVal.dict [(importStr, PyVal.list br.2)])
              | PyVal.tuple xs => do
                let br ← buildBranchM (fun d => buildStepM loc fuel d) xs Option.none
                pure (PyVal.objPos c br.1, PyVal.dict [(importStr, PyVal.tuple br.2)])
              | _ => .error (PyErr.valueErrorInvalidParams c params)
        else do
          let res ← pyCallKw (Option.some c) params
          pure (res, PyVal.dict [(importStr, params)])
      | Option.none => do
        let res ← pyCallKw Option.none params
        pure (res, PyVal.dict [(importStr, params)])
    | PyVal.dict entries =>
      .error (PyErr.valueErrorMultipleKeys (entries.map (fun e => e.1)))
    | PyVal.str s => do
      let res ← pyCallNoArgs (loc s)
      pure (res, PyVal.str s)
    | other => .error (PyErr.valueErrorBadNodeKind (pyTypeName other))

/-- `_build_step` viewed as a pure value transform (result only). -/
def build_step (loc : String → Option String) (fuel : Nat) (step : PyVal) :
    Except PyErr PyVal :=
  (buildStepM loc fuel step).map (fun r => r.1)

/-- `_build_branch` viewed as a pure value transform (result only);
children are resolved with recursion budget `fuel`. -/
def build_branch (loc : String → Option String) (fuel : Nat)
    (definition : List PyVal) (ctor : Option String) : Except PyErr PyVal :=
  (buildBranchM (fun d => buildStepM loc fuel d) definition ctor).map (fun r => r.1)

/-- The public entry point `pipeline_from_definition`: a single call into
`_build_step` on the root node. -/
def pipeline_from_definition (loc : String → Option String) (fuel : Nat)
    (pipe_definition : PyVal) : Except PyErr PyVal :=
  build_step loc fuel pipe_definition

/-! ### Evaluation lemmas for the individual branches of `_build_step` -/

/-- A bare name that resolves is built with the zero-argument call, and the
node is left unchanged. -/
lemma stepM_bare (loc : String → Option String) (fuel : Nat) (s cls : String)
    (hc : loc s = Option.some cls) :
    buildStepM loc (fuel + 1) (PyVal.str s) =
      .ok (PyVal.objKw cls [], PyVal.str s) := by
  simp [buildStepM, pyCallNoArgs, hc]

/-- A bare name that does not resolve: `pydoc.locate` returns `None`, and
calling it raises `TypeError`. -/
lemma stepM_bare_unresolved (loc : String → Option String) (fuel : Nat) (s : String)
    (hc : loc s = Option.none) :
    buildStepM loc (fuel + 1) (PyVal.str s) =
      .error PyErr.typeErrorNoneNotCallable := by
  simp [buildStepM, pyCallNoArgs, hc]

/-- A single-key mapping whose key resolves to a non-container class is
built by the keyword call on its params mapping; the node is unchanged. -/
lemma stepM_leaf_dict (loc : String → Option String) (fuel : Nat)
    (k cls : String) (pentries : List (String × PyVal))
    (hc : loc k = Option.some cls) (hnc : isContainer cls = false) :
    buildStepM loc (fuel + 1) (PyVal.dict [(k, PyVal.dict pentries)]) =
      .ok (PyVal.objKw cls pentries, PyVal.dict [(k, PyVal.dict pentries)]) := by
  simp [buildStepM, pyCallKw, hc, hnc]

/-- A single-key mapping whose key does not resolve, with mapping params:
the keyword call on `None` raises `TypeError` (`None` is not callable). -/
lemma stepM_unresolved_dict (loc : String → Option String) (fuel : Nat)
    (k : String) (pentries : List (String × PyVal))
    (hc : loc k = Option.none) :
    buildStepM loc (fuel + 1) (PyVal.dict [(k, PyVal.dict pentries)]) =
      .error PyErr.typeErrorNoneNotCallable := by
  simp [buildStepM, pyCallKw, hc]

/-- A single-key mapping whose key does not resolve, with sequence params:
the `**`-unpacking check fires first, so the raised `TypeError` is the
kwargs-not-a-mapping error. -/
lemma stepM_unresolved_list (loc : String → Option String) (fuel : Nat)
    (k : String) (xs : List PyVal)
    (hc : loc k = Option.none) :
    buildStepM loc (fuel + 1) (PyVal.dict [(k, PyVal.list xs)]) =
      .error (PyErr.typeErrorKwargsNotMapping "list") := by
  simp [buildStepM, pyCallKw, hc, pyTypeName]

/-! ### Concrete registry used by witnesses and counterexamples -/

/-- A small pure registry: two container classes, two leaf component
classes `A` and `B`, and a leaf class that happens to be importable under
the name `steps`. -/
def locEx : String → Option String
  | "P" => Option.some pipelineCls
  | "F" => Option.some featureUnionCls
  | "TypeA" => Option.some "A"
  | "TypeB" => Option.some "B"
  | "steps" => Option.some "S"
  | _ => Option.none

/-! ### C10 — the empty mapping node -/

/-- C10: the Step Resolver rejects the empty mapping `{}` with the
single-key `ValueError` (reporting the empty key set), for every registry
and every recursion budget: the exactly-one-key check rejects zero keys
just like multiple keys, before any registry lookup or construction. -/
theorem c10_empty_mapping_rejected (loc : String → Option String) (fuel : Nat) :
    build_step loc (fuel + 1) (PyVal.dict []) =
      .error (PyErr.valueErrorMultipleKeys []) := by
  simp [build_step, buildStepM, Except.map]

/-! ### C9 — a single-key mapping with an absent (null) value -/

/-- C9: contrary to the spec, an absent (null) associated value is not
replaced by an empty mapping.  `step.get(import_str, dict())` returns the
stored `None` because the key is present, and `StepClass(**None)` raises
`TypeError: argument after ** must be a mapping`; the zero-argument
construction the spec promises never happens. -/
theorem c9_none_params_type_error :
    build_step locEx 2 (PyVal.dict [("TypeB", PyVal.none)]) =
        .error (PyErr.typeErrorKwargsNotMapping "NoneType") ∧
      Except.error (PyErr.typeErrorKwargsNotMapping "NoneType") ≠
        (Except.ok (PyVal.objKw "B" []) : Except PyErr PyVal) := by
  constructor
  · rfl
  · simp

/-! ### C4 — leaf construction -/

/-- C4: a single-key mapping node whose key resolves to a non-container
class and whose value is a mapping is built by exactly that class's
constructor with the params expanded as named arguments; a bare-name node
whose name resolves is built by the zero-argument constructor call. -/
theorem c4_leaf_construction (loc : String → Option String) (fuel : Nat) :
    (∀ k cls pentries, loc k = Option.some cls → isContainer cls = false →
        build_step loc (fuel + 1) (PyVal.dict [(k, PyVal.dict pentries)]) =
          .ok (PyVal.objKw cls pentries)) ∧
    (∀ s cls, loc s = Option.some cls →
        build_step loc (fuel + 1) (PyVal.str s) = .ok (PyVal.objKw cls [])) := by
  constructor
  · intro k cls pentries hc hnc
    simp [build_step, Except.map, stepM_leaf_dict loc fuel k cls pentries hc hnc]
  · intro s cls hc
    simp [build_step, Except.map, stepM_bare loc fuel s cls hc]

/-- Witness for C4 at the spec's own scenarios: `{"TypeB": {"x": 3}}`
gives `B(x=3)` and the bare name `"TypeA"` gives `A()`. -/
theorem c4_witness :
    build_step locEx 1 (PyVal.dict [("TypeB", PyVal.dict [("x", PyVal.int 3)])]) =
        .ok (PyVal.objKw "B" [("x", PyVal.int 3)]) ∧
      build_step locEx 1 (PyVal.str "TypeA") = .ok (PyVal.objKw "A" []) :=
  ⟨(c4_leaf_construction locEx 0).1 "TypeB" "B" [("x", PyVal.int 3)] rfl rfl,
   (c4_leaf_construction locEx 0).2 "TypeA" "A" rfl⟩

/-! ### C5 — unresolvable names -/

/-- C5 is false as stated: the code defines no dedicated
`UnresolvableTypeError`.  There is no single error value raised for all
unresolvable-name nodes: a bare unresolvable name raises the
`'NoneType' object is not callable` `TypeError` (from invoking the `None`
that `pydoc.locate` returned), while an unresolvable single-key mapping
whose params is a sequence raises the kwargs-unpacking `TypeError`
instead — two different construction-time errors. -/
theorem c5_counterexample :
    ¬ ∃ e : PyErr,
        build_step locEx 2 (PyVal.str "bogus") = .error e ∧
        build_step locEx 2 (PyVal.dict [("bogus", PyVal.list [])]) = .error e := by
  rintro ⟨e, h1, h2⟩
  rw [show build_step locEx 2 (PyVal.str "bogus") =
        .error PyErr.typeErrorNoneNotCallable from rfl] at h1
  rw [show build_step locEx 2 (PyVal.dict [("bogus", PyVal.list [])]) =
        .error (PyErr.typeErrorKwargsNotMapping "list") from rfl] at h2
  injection h1 with h1e
  injection h2 with h2e
  rw [← h1e] at h2e
  exact PyErr.noConfusion h2e

/-- C5 amended: an unresolvable name never produces a constructed
component, but the error raised is a plain `TypeError` from the attempted
invocation, not a dedicated resolution error: for a bare name or a mapping
node with mapping params it is the `None`-not-callable error, while for a
mapping node with sequence params it is the kwargs-unpacking error. -/
theorem c5_unresolvable_name (loc : String → Option String) (fuel : Nat)
    (s : String) (hc : loc s = Option.none) :
    build_step loc (fuel + 1) (PyVal.str s) =
        .error PyErr.typeErrorNoneNotCallable ∧
    (∀ pentries, build_step loc (fuel + 1) (PyVal.dict [(s, PyVal.dict pentries)]) =
        .error PyErr.typeErrorNoneNotCallable) ∧
    (∀ xs : List PyVal, build_step loc (fuel + 1) (PyVal.dict [(s, PyVal.list xs)]) =
        .error (PyErr.typeErrorKwargsNotMapping "list")) := by
  refine ⟨?_, ?_, ?_⟩
  · simp [build_step, Except.map, stepM_bare_unresolved loc fuel s hc]
  · intro pentries
    simp [build_step, Except.map, stepM_unresolved_dict loc fuel s pentries hc]
  · intro xs
    simp [build_step, Except.map, stepM_unresolved_list loc fuel s xs hc]

/-- Witness for the amended C5 at the name `bogus`, which `locEx` does not
resolve. -/
theorem c5_witness :
    build_step locEx 1 (PyVal.str "bogus") =
        .error PyErr.typeErrorNoneNotCallable ∧
      build_step locEx 1 (PyVal.dict [("bogus", PyVal.dict [])]) =
        .error PyErr.typeErrorNoneNotCallable ∧
      build_step locEx 1 (PyVal.dict [("bogus", PyVal.list [])]) =
        .error (PyErr.typeErrorKwargsNotMapping "list") :=
  ⟨(c5_unresolvable_name locEx 0 "bogus" rfl).1,
   (c5_unresolvable_name locEx 0 "bogus" rfl).2.1 [],
   (c5_unresolvable_name locEx 0 "bogus" rfl).2.2 []⟩

/-! ### C6 — the malformed-definition errors -/

/-- C6: the `ValueError`s of the Step Resolver fire exactly at the
structural violations: a mapping node with more than one key (naming the
offending key set), a node that is neither a string nor a mapping
(reporting its kind), and a resolved container class whose mapping params
hold neither recognized children key; conversely, on bare-name nodes and
single-key non-container mapping nodes no malformed-definition error can
arise. -/
theorem c6_malformed_errors (loc : String → Option String) (fuel : Nat) :
    (∀ entries : List (String × PyVal), 1 < entries.length →
        build_step loc (fuel + 1) (PyVal.dict entries) =
          .error (PyErr.valueErrorMultipleKeys (entries.map (fun e => e.1)))) ∧
    (∀ n : Int, build_step loc (fuel + 1) (PyVal.int n) =
        .error (PyErr.valueErrorBadNodeKind "int")) ∧
    (∀ xs : List PyVal, build_step loc (fuel + 1) (PyVal.list xs) =
        .error (PyErr.valueErrorBadNodeKind "list")) ∧
    (build_step loc (fuel + 1) PyVal.none =
        .error (PyErr.valueErrorBadNodeKind "NoneType")) ∧
    (∀ k cls pentries, loc k = Option.some cls → isContainer cls = true →
        dictGet pentries "transformer_list" = Option.none →
        dictGet pentries "steps" = Option.none →
        build_step loc (fuel + 1) (PyVal.dict [(k, PyVal.dict pentries)]) =
          .error (PyErr.valueErrorInvalidParams cls (PyVal.dict pentries))) ∧
    (∀ s e, build_step loc (fuel + 1) (PyVal.str s) = .error e →
        e.isMalformed = false) ∧
    (∀ k pentries e, (∀ cls, loc k = Option.some cls → isContainer cls = false) →
        build_step loc (fuel + 1) (PyVal.dict [(k, PyVal.dict pentries)]) = .error e →
        e.isMalformed = false) := by
  refine ⟨?_, ?_, ?_, ?_, ?_, ?_, ?_⟩
  · intro entries hlen
    match entries, hlen with
    | (k1, v1) :: (k2, v2) :: rest, _ =>
      simp [build_step, buildStepM, Except.map]
  · intro n; simp [build_step, buildStepM, Except.map, pyTypeName]
  · intro xs; simp [build_step, buildStepM, Except.map, pyTypeName]
  · simp [build_step, buildStepM, Except.map, pyTypeName]
  · intro k cls pentries hc hcont h1 h2
    simp [build_step, buildStepM, Except.map, hc, hcont, pyContains, h1, h2]
  · intro s e
    cases hc : loc s with
    | none =>
      rw [show build_step loc (fuel + 1) (PyVal.str s) =
            .error PyErr.typeErrorNoneNotCallable by
        simp [build_step, Except.map, stepM_bare_unresolved loc fuel s hc]]
      intro he
      injection he with he
      rw [← he]
      rfl
    | some cls =>
      rw [show build_step loc (fuel + 1) (PyVal.str s) = .ok (PyVal.objKw cls []) by
        simp [build_step, Except.map, stepM_bare loc fuel s cls hc]]
      intro he
      exact Except.noConfusion he
  · intro k pentries e hnc
    cases hc : loc k with
    | none =>
      rw [show build_step loc (fuel + 1) (PyVal.dict [(k, PyVal.dict pentries)]) =
            .error PyErr.typeErrorNoneNotCallable by
        simp [build_step, Except.map, stepM_unresolved_dict loc fuel k pentries hc]]
      intro he
      injection he with he
      rw [← he]
      rfl
    | some cls =>
      rw [show build_step loc (fuel + 1) (PyVal.dict [(k, PyVal.dict pentries)]) =
            .ok (PyVal.objKw cls pentries) by
        simp [build_step, Except.map,
          stepM_leaf_dict loc fuel k cls pentries hc (hnc cls hc)]]
      intro he
      exact Except.noConfusion he

/-- Witness for C6: a two-key mapping, a bare integer node, and a container
class given scalar-only params each raise the corresponding `ValueError`. -/
theorem c6_witness :
    build_step locEx 1 (PyVal.dict [("TypeA", PyVal.dict []), ("TypeB", PyVal.dict [])]) =
        .error (PyErr.valueErrorMultipleKeys ["TypeA", "TypeB"]) ∧
      build_step locEx 1 (PyVal.int 7) =
        .error (PyErr.valueErrorBadNodeKind "int") ∧
      build_step locEx 1 (PyVal.dict [("P", PyVal.dict [("x", PyVal.int 1)])]) =
        .error (PyErr.valueErrorInvalidParams pipelineCls
          (PyVal.dict [("x", PyVal.int 1)])) :=
  ⟨(c6_malformed_errors locEx 0).1 [("TypeA", PyVal.dict []), ("TypeB", PyVal.dict [])]
      (by simp),
   (c6_malformed_errors locEx 0).2.1 7,
   (c6_malformed_errors locEx 0).2.2.2.2.1 "P" pipelineCls [("x", PyVal.int 1)]
      rfl rfl rfl rfl⟩

/-! ### C1 — the Branch Builder labeling law -/

/-- A successful run of the labeling comprehension produces one output per
input definition. -/
lemma buildSteps_ok_length (bs : PyVal → Except PyErr (PyVal × PyVal))
    (defs : List PyVal) :
    ∀ (i : Nat) (built : List (PyVal × PyVal)),
      buildSteps bs i defs = .ok built → built.length = defs.length := by
  induction defs with
  | nil =>
    intro i built h
    simp [buildSteps] at h
    simp [← h]
  | cons d ds ih =>
    intro i built h
    simp only [buildSteps] at h
    cases hbd : bs d with
    | error e => rw [hbd] at h; simp at h
    | ok r =>
      rw [hbd] at h
      cases hrest : buildSteps bs (i + 1) ds with
      | error e => rw [hrest] at h; simp at h
      | ok rest =>
        rw [hrest] at h
        simp only [except_bind_ok, pure] at h
        injection h with h
        rw [← h]
        simp [ih (i + 1) rest hrest]

/-- Element `j` of a successful run of the labeling comprehension started
at index `i` is the resolved child `defs[j]` paired with the synthesized
label `step_(i+j)`. -/
lemma buildSteps_ok_nth (bs : PyVal → Except PyErr (PyVal × PyVal))
    (defs : List PyVal) :
    ∀ (i : Nat) (built : List (PyVal × PyVal)),
      buildSteps bs i defs = .ok built →
      ∀ (j : Nat) (d : PyVal), defs[j]? = Option.some d →
        ∃ o p, bs d = .ok (o, p) ∧
          built[j]? = Option.some
            (PyVal.tuple [PyVal.str ("step_" ++ toString (i + j)), o], p) := by
  induction defs with
  | nil => intro i built h j d hj; simp at hj
  | cons d0 ds ih =>
    intro i built h j d hj
    simp only [buildSteps] at h
    cases hbd : bs d0 with
    | error e => rw [hbd] at h; simp at h
    | ok r =>
      rw [hbd] at h
      cases hrest : buildSteps bs (i + 1) ds with
      | error e => rw [hrest] at h; simp at h
      | ok rest =>
        rw [hrest] at h
        simp only [except_bind_ok, pure] at h
        injection h with h
        cases j with
        | zero =>
          simp only [List.getElem?_cons_zero] at hj
          injection hj with hj
          refine ⟨r.1, r.2, by rw [← hj, hbd], ?_⟩
          rw [← h]
          simp
        | succ j =>
          simp only [List.getElem?_cons_succ] at hj
          obtain ⟨o, p, hop, hnth⟩ := ih (i + 1) rest hrest j d hj
          refine ⟨o, p, hop, ?_⟩
          rw [← h]
          simp only [List.getElem?_cons_succ]
          rw [hnth]
          have harith : i + 1 + j = i + (j + 1) := by omega
          rw [harith]

/-- C1: for every definition sequence, a successful Branch Builder run with
no container constructor returns exactly one labeled child per input
definition, labeled `step_0 … step_(n-1)` by zero-based position in input
order, each child resolved by the Step Resolver; and with a container
constructor supplied, the result is exactly that constructor invoked
positionally on the same ordered list. -/
theorem c1_branch_builder_labels (loc : String → Option String) (fuel : Nat)
    (defs : List PyVal) :
    (∀ r, build_branch loc fuel defs Option.none = .ok r →
      ∃ steps : List PyVal, r = PyVal.list steps ∧
        steps.length = defs.length ∧
        ∀ (j : Nat) (d : PyVal), defs[j]? = Option.some d →
          ∃ o, build_step loc fuel d = .ok o ∧
            steps[j]? = Option.some
              (PyVal.tuple [PyVal.str ("step_" ++ toString j), o])) ∧
    (∀ c, build_branch loc fuel defs (Option.some c) =
      (build_branch loc fuel defs Option.none).map (fun l => PyVal.objPos c l)) := by
  constructor
  · intro r hr
    unfold build_branch buildBranchM at hr
    cases hbs : buildSteps (fun d => buildStepM loc fuel d) 0 defs with
    | error e => rw [hbs] at hr; simp at hr
    | ok built =>
      rw [hbs] at hr
      simp only [except_bind_ok, pure, except_map_ok] at hr
      injection hr with hr
      refine ⟨built.map (fun b => b.1), by rw [← hr], ?_, ?_⟩
      · simp [buildSteps_ok_length _ _ _ _ hbs]
      · intro j d hj
        obtain ⟨o, p, hop, hnth⟩ := buildSteps_ok_nth _ _ 0 built hbs j d hj
        refine ⟨o, ?_, ?_⟩
        · simp [build_step, hop]
        · simp only [List.getElem?_map]
          rw [hnth]
          simp
  · intro c
    unfold build_branch buildBranchM
    cases hbs : buildSteps (fun d => buildStepM loc fuel d) 0 defs with
    | error e => simp
    | ok built => simp

/-- Witness for C1 on a two-element definition sequence mixing a leaf and a
composite child: the labeled children are `step_0`, `step_1` in input
order. -/
theorem c1_witness :
    ∃ steps : List PyVal,
      PyVal.list
          [PyVal.tuple [PyVal.str "step_0", PyVal.objKw "A" []],
           PyVal.tuple [PyVal.str "step_1",
             PyVal.objPos pipelineCls
               (PyVal.list [PyVal.tuple [PyVal.str "step_0", PyVal.objKw "B" []]])]] =
        PyVal.list steps ∧
      steps.length =
        ([PyVal.str "TypeA",
          PyVal.dict [("P", PyVal.list [PyVal.str "TypeB"])]] : List PyVal).length ∧
      ∀ (j : Nat) (d : PyVal),
        ([PyVal.str "TypeA",
          PyVal.dict [("P", PyVal.list [PyVal.str "TypeB"])]] : List PyVal)[j]? =
          Option.some d →
        ∃ o, build_step locEx 2 d = .ok o ∧
          steps[j]? = Option.some (PyVal.tuple [PyVal.str ("step_" ++ toString j), o]) :=
  (c1_branch_builder_labels locEx 2
      [PyVal.str "TypeA", PyVal.dict [("P", PyVal.list [PyVal.str "TypeB"])]]).1
    _ rfl

/-! ### C2 — container with a recognized children parameter -/

/-- Full evaluation of a container node whose params mapping holds a
`transformer_list` entry: the entry is replaced in place by the built
labeled list and the constructor is invoked on the whole params mapping. -/
lemma stepM_container_tl (loc : String → Option String) (fuel : Nat)
    (k c : String) (pentries : List (String × PyVal)) (raw : PyVal)
    (kids : List PyVal) (builtL : PyVal) (posts : List PyVal)
    (hc : loc k = Option.some c) (hcont : isContainer c = true)
    (h1 : dictGet pentries "transformer_list" = Option.some raw)
    (hIter : pyIter raw = .ok kids)
    (hbr : buildBranchM (fun d => buildStepM loc fuel d) kids Option.none =
      .ok (builtL, posts)) :
    buildStepM loc (fuel + 1) (PyVal.dict [(k, PyVal.dict pentries)]) =
      .ok (PyVal.objKw c (dictSet pentries "transformer_list" builtL),
        PyVal.dict [(k, PyVal.dict (dictSet pentries "transformer_list" builtL))]) := by
  simp [buildStepM, hc, hcont, pyContains, h1, pyGetItem, hIter, hbr,
    pySetItem, pyCallKw]

/-- Full evaluation of a container node whose params mapping holds a
`steps` entry (and no `transformer_list` entry, which the code tests
first): the same in-place substitution and keyword invocation. -/
lemma stepM_container_steps (loc : String → Option String) (fuel : Nat)
    (k c : String) (pentries : List (String × PyVal)) (raw : PyVal)
    (kids : List PyVal) (builtL : PyVal) (posts : List PyVal)
    (hc : loc k = Option.some c) (hcont : isContainer c = true)
    (h0 : dictGet pentries "transformer_list" = Option.none)
    (h1 : dictGet pentries "steps" = Option.some raw)
    (hIter : pyIter raw = .ok kids)
    (hbr : buildBranchM (fun d => buildStepM loc fuel d) kids Option.none =
      .ok (builtL, posts)) :
    buildStepM loc (fuel + 1) (PyVal.dict [(k, PyVal.dict pentries)]) =
      .ok (PyVal.objKw c (dictSet pentries "steps" builtL),
        PyVal.dict [(k, PyVal.dict (dictSet pentries "steps" builtL))]) := by
  simp [buildStepM, hc, hcont, pyContains, h0, h1, pyGetItem, hIter, hbr,
    pySetItem, pyCallKw]

/-- Turn a successful `build_branch` into the underlying successful
`buildBranchM`, exposing the collected child post-states. -/
lemma build_branch_ok (loc : String → Option String) (fuel : Nat)
    (kids : List PyVal) (ctor : Option String) (builtL : PyVal)
    (h : build_branch loc fuel kids ctor = .ok builtL) :
    ∃ posts, buildBranchM (fun d => buildStepM loc fuel d) kids ctor =
      .ok (builtL, posts) := by
  unfold build_branch at h
  cases hb : buildBranchM (fun d => buildStepM loc fuel d) kids ctor with
  | error e => rw [hb] at h; simp at h
  | ok bp =>
    rw [hb] at h
    simp only [except_map_ok] at h
    injection h with h
    exact ⟨bp.2, by rw [← h]⟩

/-- C2: a single-key mapping node resolving to a container class whose
mapping params carry a children parameter under either accepted spelling
(`steps` or `transformer_list`) has that parameter's value replaced by the
raw ordered list of Labeled Children built with no wrapping constructor,
after which the container constructor is invoked with all params
(including the substituted list) as named arguments; both spellings are
treated identically. -/
theorem c2_container_children_param (loc : String → Option String) (fuel : Nat)
    (k c : String) (pentries : List (String × PyVal)) (raw : PyVal)
    (kids : List PyVal) (builtL : PyVal)
    (hc : loc k = Option.some c) (hcont : isContainer c = true) :
    (dictGet pentries "transformer_list" = Option.some raw →
      pyIter raw = .ok kids →
      build_branch loc fuel kids Option.none = .ok builtL →
      build_step loc (fuel + 1) (PyVal.dict [(k, PyVal.dict pentries)]) =
        .ok (PyVal.objKw c (dictSet pentries "transformer_list" builtL))) ∧
    (dictGet pentries "transformer_list" = Option.none →
      dictGet pentries "steps" = Option.some raw →
      pyIter raw = .ok kids →
      build_branch loc fuel kids Option.none = .ok builtL →
      build_step loc (fuel + 1) (PyVal.dict [(k, PyVal.dict pentries)]) =
        .ok (PyVal.objKw c (dictSet pentries "steps" builtL))) := by
  constructor
  · intro h1 hIter hbr
    obtain ⟨posts, hb⟩ := build_branch_ok loc fuel kids Option.none builtL hbr
    simp [build_step,
      stepM_container_tl loc fuel k c pentries raw kids builtL posts
        hc hcont h1 hIter hb]
  · intro h0 h1 hIter hbr
    obtain ⟨posts, hb⟩ := build_branch_ok loc fuel kids Option.none builtL hbr
    simp [build_step,
      stepM_container_steps loc fuel k c pentries raw kids builtL posts
        hc hcont h0 h1 hIter hb]

/-- Witness for C2 at the spec's scenario
`{"SequentialContainer": {"steps": ["TypeA", {"TypeB": {"x": 1}}]}}`: the
container receives `steps = [(step_0, A()), (step_1, B(x=1))]` in order. -/
theorem c2_witness :
    build_step locEx 2
        (PyVal.dict [("P", PyVal.dict [("steps",
          PyVal.list [PyVal.str "TypeA",
            PyVal.dict [("TypeB", PyVal.dict [("x", PyVal.int 1)])]])])]) =
      .ok (PyVal.objKw pipelineCls (dictSet
        [("steps", PyVal.list [PyVal.str "TypeA",
            PyVal.dict [("TypeB", PyVal.dict [("x", PyVal.int 1)])]])]
        "steps"
        (PyVal.list [PyVal.tuple [PyVal.str "step_0", PyVal.objKw "A" []],
          PyVal.tuple [PyVal.str "step_1",
            PyVal.objKw "B" [("x", PyVal.int 1)]]]))) :=
  (c2_container_children_param locEx 1 "P" pipelineCls
      [("steps", PyVal.list [PyVal.str "TypeA",
        PyVal.dict [("TypeB", PyVal.dict [("x", PyVal.int 1)])]])]
      (PyVal.list [PyVal.str "TypeA",
        PyVal.dict [("TypeB", PyVal.dict [("x", PyVal.int 1)])]])
      [PyVal.str "TypeA", PyVal.dict [("TypeB", PyVal.dict [("x", PyVal.int 1)])]]
      (PyVal.list [PyVal.tuple [PyVal.str "step_0", PyVal.objKw "A" []],
        PyVal.tuple [PyVal.str "step_1", PyVal.objKw "B" [("x", PyVal.int 1)]]])
      rfl rfl).2 rfl rfl rfl rfl

/-! ### C3 — container with bare-sequence params -/

/-- C3 is false as stated: when the bare child sequence contains the
literal string `"steps"` as an element, the membership test
`'steps' in params` succeeds (Python list membership), and the subsequent
`params['steps']` read raises `TypeError: list indices must be integers`,
even though the sequence's Labeled Children are perfectly buildable and
the claim promises a positional container construction from them. -/
theorem c3_counterexample :
    build_step locEx 3 (PyVal.dict [("P", PyVal.list [PyVal.str "steps"])]) =
        .error PyErr.typeErrorListIndicesStr ∧
      build_branch locEx 3 [PyVal.str "steps"] Option.none =
        .ok (PyVal.list [PyVal.tuple [PyVal.str "step_0", PyVal.objKw "S" []]]) ∧
      Except.error PyErr.typeErrorListIndicesStr ≠
        (Except.ok (PyVal.objPos pipelineCls
          (PyVal.list [PyVal.tuple [PyVal.str "step_0", PyVal.objKw "S" []]])) :
            Except PyErr PyVal) := by
  refine ⟨rfl, rfl, ?_⟩
  simp

/-- Evaluation of a container node whose params is a bare list holding
neither of the two children-parameter strings as an element. -/
lemma stepM_container_pos_list (loc : String → Option String) (fuel : Nat)
    (k c : String) (xs : List PyVal) (l : PyVal) (posts : List PyVal)
    (hc : loc k = Option.some c) (hcont : isContainer c = true)
    (hn1 : xs.any (fun x => pyEqStr x "transformer_list") = false)
    (hn2 : xs.any (fun x => pyEqStr x "steps") = false)
    (hbr : buildBranchM (fun d => buildStepM loc fuel d) xs Option.none =
      .ok (l, posts)) :
    buildStepM loc (fuel + 1) (PyVal.dict [(k, PyVal.list xs)]) =
      .ok (PyVal.objPos c l, PyVal.dict [(k, PyVal.list posts)]) := by
  simp [buildStepM, hc, hcont, pyContains, hn1, hn2, hbr]

/-- C3 amended: the claim holds provided the bare child sequence does not
contain the literal strings `"transformer_list"` or `"steps"` as elements
(otherwise the membership probe misfires, see the counterexample): the
sequence is treated directly as the child Definition Sequence and the
container constructor is invoked with the single positional argument
`_build_branch(params, None)`. -/
theorem c3_sequence_params (loc : String → Option String) (fuel : Nat)
    (k c : String) (xs : List PyVal) (l : PyVal)
    (hc : loc k = Option.some c) (hcont : isContainer c = true)
    (hn1 : xs.any (fun x => pyEqStr x "transformer_list") = false)
    (hn2 : xs.any (fun x => pyEqStr x "steps") = false)
    (hbr : build_branch loc fuel xs Option.none = .ok l) :
    build_step loc (fuel + 1) (PyVal.dict [(k, PyVal.list xs)]) =
      .ok (PyVal.objPos c l) := by
  obtain ⟨posts, hb⟩ := build_branch_ok loc fuel xs Option.none l hbr
  simp [build_step,
    stepM_container_pos_list loc fuel k c xs l posts hc hcont hn1 hn2 hb]

/-- Witness for the amended C3 at the spec's scenario
`{"ParallelContainer": [{"TypeA": {}}, "TypeB"]}`: the container is
constructed from a single positional list of two Labeled Children. -/
theorem c3_witness :
    build_step locEx 2
        (PyVal.dict [("F", PyVal.list
          [PyVal.dict [("TypeA", PyVal.dict [])], PyVal.str "TypeB"])]) =
      .ok (PyVal.objPos featureUnionCls
        (PyVal.list [PyVal.tuple [PyVal.str "step_0", PyVal.objKw "A" []],
          PyVal.tuple [PyVal.str "step_1", PyVal.objKw "B" []]])) :=
  c3_sequence_params locEx 1 "F" featureUnionCls
    [PyVal.dict [("TypeA", PyVal.dict [])], PyVal.str "TypeB"]
    (PyVal.list [PyVal.tuple [PyVal.str "step_0", PyVal.objKw "A" []],
      PyVal.tuple [PyVal.str "step_1", PyVal.objKw "B" []]])
    rfl rfl rfl rfl rfl

/-! ### C7 — determinism of repeated translation -/

/-- C7 is false as stated for the code: translating the same definition
object twice does not yield identical object graphs, because the first
translation rewrites the container's children entry in place.  Here the
first run of `{"P": {"steps": ["TypeA"]}}` succeeds and leaves the node in
a state whose children are `(label, object)` tuples, so the second run of
the same (now mutated) node fails with the not-a-string-or-dict
`ValueError` instead of returning the same graph. -/
theorem c7_counterexample :
    buildStepM locEx 4
        (PyVal.dict [("P", PyVal.dict [("steps", PyVal.list [PyVal.str "TypeA"])])]) =
      .ok (PyVal.objKw pipelineCls [("steps",
          PyVal.list [PyVal.tuple [PyVal.str "step_0", PyVal.objKw "A" []]])],
        PyVal.dict [("P", PyVal.dict [("steps",
          PyVal.list [PyVal.tuple [PyVal.str "step_0", PyVal.objKw "A" []]])])]) ∧
      build_step locEx 4
        (PyVal.dict [("P", PyVal.dict [("steps",
          PyVal.list [PyVal.tuple [PyVal.str "step_0", PyVal.objKw "A" []]])])]) =
        .error (PyErr.valueErrorBadNodeKind "tuple") ∧
      Except.error (PyErr.valueErrorBadNodeKind "tuple") ≠
        (Except.ok (PyVal.objKw pipelineCls [("steps",
          PyVal.list [PyVal.tuple [PyVal.str "step_0", PyVal.objKw "A" []]])]) :
            Except PyErr PyVal) := by
  refine ⟨rfl, rfl, ?_⟩
  simp

/-- C7 amended: translation is a pure function of the definition value, so
determinism holds whenever each run receives a structurally equal fresh
copy; re-translating the very same node object is only guaranteed for
bare-name nodes and non-container parameterized nodes, which the call
leaves unchanged, and then the second run returns the identical result. -/
theorem c7_leaf_retranslation (loc : String → Option String) (fuel : Nat) :
    (∀ s c, loc s = Option.some c →
      ∀ r post, buildStepM loc (fuel + 1) (PyVal.str s) = .ok (r, post) →
        post = PyVal.str s ∧ buildStepM loc (fuel + 1) post = .ok (r, post)) ∧
    (∀ k c pentries, loc k = Option.some c → isContainer c = false →
      ∀ r post,
        buildStepM loc (fuel + 1) (PyVal.dict [(k, PyVal.dict pentries)]) =
          .ok (r, post) →
        post = PyVal.dict [(k, PyVal.dict pentries)] ∧
          buildStepM loc (fuel + 1) post = .ok (r, post)) := by
  constructor
  · intro s c hc r post h
    rw [stepM_bare loc fuel s c hc] at h
    injection h with h
    rw [Prod.mk.injEq] at h
    obtain ⟨h1, h2⟩ := h
    subst h1
    subst h2
    exact ⟨rfl, stepM_bare loc fuel s c hc⟩
  · intro k c pentries hc hnc r post h
    rw [stepM_leaf_dict loc fuel k c pentries hc hnc] at h
    injection h with h
    rw [Prod.mk.injEq] at h
    obtain ⟨h1, h2⟩ := h
    subst h1
    subst h2
    exact ⟨rfl, stepM_leaf_dict loc fuel k c pentries hc hnc⟩

/-- Witness for the amended C7: the leaf node `{"TypeB": {"x": 3}}` is left
unchanged and re-translating it gives the identical result. -/
theorem c7_witness :
    PyVal.dict [("TypeB", PyVal.dict [("x", PyVal.int 3)])] =
        PyVal.dict [("TypeB", PyVal.dict [("x", PyVal.int 3)])] ∧
      buildStepM locEx 1 (PyVal.dict [("TypeB", PyVal.dict [("x", PyVal.int 3)])]) =
        .ok (PyVal.objKw "B" [("x", PyVal.int 3)],
          PyVal.dict [("TypeB", PyVal.dict [("x", PyVal.int 3)])]) :=
  (c7_leaf_retranslation locEx 0).2 "TypeB" "B" [("x", PyVal.int 3)] rfl rfl
    (PyVal.objKw "B" [("x", PyVal.int 3)])
    (PyVal.dict [("TypeB", PyVal.dict [("x", PyVal.int 3)])]) rfl

/-! ### C8 — the input tree is not left unchanged -/

/-- C8 is false as stated: a completed translation of
`{"F": {"transformer_list": ["TypeA"]}}` leaves the input node mutated —
its `transformer_list` entry now holds the built `(label, object)` tuples
instead of the original child definitions. -/
theorem c8_counterexample :
    buildStepM locEx 3
        (PyVal.dict [("F", PyVal.dict
          [("transformer_list", PyVal.list [PyVal.str "TypeA"])])]) =
      .ok (PyVal.objKw featureUnionCls [("transformer_list",
          PyVal.list [PyVal.tuple [PyVal.str "step_0", PyVal.objKw "A" []]])],
        PyVal.dict [("F", PyVal.dict [("transformer_list",
          PyVal.list [PyVal.tuple [PyVal.str "step_0", PyVal.objKw "A" []]])])]) ∧
      PyVal.dict [("F", PyVal.dict [("transformer_list",
          PyVal.list [PyVal.tuple [PyVal.str "step_0", PyVal.objKw "A" []]])])] ≠
        PyVal.dict [("F", PyVal.dict
          [("transformer_list", PyVal.list [PyVal.str "TypeA"])])] := by
  refine ⟨rfl, ?_⟩
  simp

/-- C8 amended: the call is not a pure read of the input tree.  Bare-name
nodes and non-container parameterized nodes are left unchanged, but a
container node carrying a recognized children parameter has that entry of
its params mapping overwritten in place with the built labeled list. -/
theorem c8_input_mutation (loc : String → Option String) (fuel : Nat) :
    (∀ s c, loc s = Option.some c →
      buildStepM loc (fuel + 1) (PyVal.str s) =
        .ok (PyVal.objKw c [], PyVal.str s)) ∧
    (∀ k c pentries, loc k = Option.some c → isContainer c = false →
      buildStepM loc (fuel + 1) (PyVal.dict [(k, PyVal.dict pentries)]) =
        .ok (PyVal.objKw c pentries, PyVal.dict [(k, PyVal.dict pentries)])) ∧
    (∀ k c pentries raw kids builtL, loc k = Option.some c →
      isContainer c = true →
      dictGet pentries "transformer_list" = Option.none →
      dictGet pentries "steps" = Option.some raw →
      pyIter raw = .ok kids →
      build_branch loc fuel kids Option.none = .ok builtL →
      buildStepM loc (fuel + 1) (PyVal.dict [(k, PyVal.dict pentries)]) =
        .ok (PyVal.objKw c (dictSet pentries "steps" builtL),
          PyVal.dict [(k, PyVal.dict (dictSet pentries "steps" builtL))])) := by
  refine ⟨?_, ?_, ?_⟩
  · intro s c hc
    exact stepM_bare loc fuel s c hc
  · intro k c pentries hc hnc
    exact stepM_leaf_dict loc fuel k c pentries hc hnc
  · intro k c pentries raw kids builtL hc hcont h0 h1 hIter hbr
    obtain ⟨posts, hb⟩ := build_branch_ok loc fuel kids Option.none builtL hbr
    exact stepM_container_steps loc fuel k c pentries raw kids builtL posts
      hc hcont h0 h1 hIter hb

/-- Witness for the amended C8: a bare name is left unchanged while
`{"P": {"steps": ["TypeB"]}}` comes back with its `steps` entry replaced
by the built labeled list. -/
theorem c8_witness :
    buildStepM locEx 1 (PyVal.str "TypeA") =
        .ok (PyVal.objKw "A" [], PyVal.str "TypeA") ∧
      buildStepM locEx 2 (PyVal.dict [("P", PyVal.dict
          [("steps", PyVal.list [PyVal.str "TypeB"])])]) =
        .ok (PyVal.objKw pipelineCls
            (dictSet [("steps", PyVal.list [PyVal.str "TypeB"])] "steps"
              (PyVal.list [PyVal.tuple [PyVal.str "step_0", PyVal.objKw "B" []]])),
          PyVal.dict [("P", PyVal.dict
            (dictSet [("steps", PyVal.list [PyVal.str "TypeB"])] "steps"
              (PyVal.list [PyVal.tuple [PyVal.str "step_0", PyVal.objKw "B" []]])))]) :=
  ⟨(c8_input_mutation locEx 0).1 "TypeA" "A" rfl,
   (c8_input_mutation locEx 1).2.2 "P" pipelineCls
     [("steps", PyVal.list [PyVal.str "TypeB"])]
     (PyVal.list [PyVal.str "TypeB"]) [PyVal.str "TypeB"]
     (PyVal.list [PyVal.tuple [PyVal.str "step_0", PyVal.objKw "B" []]])
     rfl rfl rfl rfl rfl rfl⟩

end PipelineTranslator
